import Mathlib

/-!
Shallow embedding of the service worker in sw.js (Friday Saga PWA).

The worker manages a Cache Store: named caches ("generations") holding
request-URL → response entries.  We model:

* a URL as its path plus query string (the fragment plays no role);
* a request as its URL plus destination (used only to detect
  top-level document navigations);
* a response as its status and body;
* the store as a list of named caches in creation order — caches.match
  searches the caches in creation order, so order matters;
* the install, activate and fetch listeners as pure functions.

Fire-and-forget cache writes (caches.open(..).then(c => c.put(..)),
which the code does not await) are modelled as pending writes returned
alongside the response: the store argument is never mutated by the fetch
handler, and the response component is produced independently of whether
the pending writes have been applied.  applyWrites makes a pending
write visible, modelling its eventual completion.
-/

namespace Friday

/-- A request URL: path plus query string (empty string = no query). -/
structure URL where
  path : String
  query : String
deriving DecidableEq, Repr

/-- An intercepted request: its URL and its destination
("document" for top-level navigations). -/
structure Request where
  url : URL
  destination : String
deriving DecidableEq, Repr

/-- A response: HTTP status and body. -/
structure Response where
  status : Nat
  body : String
deriving DecidableEq, Repr

/-- A single named cache: URL-keyed entries, in insertion order. -/
abbrev Cache := List (URL × Response)

/-- The Cache Store: named caches in creation order. -/
abbrev Store := List (String × Cache)

/-- Source constant CACHE_NAME — the data generation name. -/
def CACHE_NAME : String := "friday-saga-v2"

/-- Source constant STATIC_CACHE_NAME — the static generation name. -/
def STATIC_CACHE_NAME : String := "friday-saga-static-v2"

/-- The static precache manifest, source list urlsToCache. -/
def urlsToCache : List String :=
  ["/", "/index.html", "/styles.css", "/js/main.js",
   "/js/modules/Animations.js", "/js/modules/ContentRenderer.js",
   "/js/modules/DataLoader.js", "/js/modules/TabManager.js",
   "/js/modules/VideoLoader.js", "/js/modules/YouTubeEmbed.js",
   "/favicon.ico", "/favicon.svg", "/icon-192.png", "/icon-512.png"]

/-- The paths handled network-first, source list DATA_FILES. -/
def DATA_FILES : List String :=
  ["/data/characters.json", "/data/jokes.json",
   "/data/themes.json", "/data/videos.json"]

/-- Embeds cache.match(request): first entry whose full URL (path *and*
query — the Cache API default, ignoreSearch being false) equals the
request URL. -/
def cacheMatch : Cache → URL → Option Response
  | [], _ => none
  | e :: rest, u => if e.1 = u then some e.2 else cacheMatch rest u

/-- Embeds cache.put(request, response): delete any entry matching the
full URL, then append the new entry. -/
def cachePut : Cache → URL → Response → Cache
  | [], u, r => [(u, r)]
  | e :: rest, u, r => if e.1 = u then cachePut rest u r else e :: cachePut rest u r

/-- Embeds caches.match(request): search every cache in the store, in
cache creation order, returning the first match. -/
def cachesMatchAll : Store → URL → Option Response
  | [], _ => none
  | nc :: rest, u =>
    match cacheMatch nc.2 u with
    | some r => some r
    | none => cachesMatchAll rest u

/-- Embeds caches.open(name): create the named cache (empty, at the end
of the creation order) if it does not exist. -/
def storeOpen : Store → String → Store
  | [], name => [(name, [])]
  | nc :: rest, name => if nc.1 = name then nc :: rest else nc :: storeOpen rest name

/-- Embeds caches.open(name).then(c => c.put(u, r)) once it completes. -/
def storePut : Store → String → URL → Response → Store
  | [], name, u, r => [(name, cachePut [] u r)]
  | nc :: rest, name, u, r =>
    if nc.1 = name then (nc.1, cachePut nc.2 u r) :: rest
    else nc :: storePut rest name u r

/-- Embeds caches.keys(): the generation names present, in creation order. -/
def storeNames (s : Store) : List String := s.map (fun nc => nc.1)

/-- The router classification, source line
DATA_FILES.some(dataPath => url.pathname === dataPath):
only the path is consulted, never the query. -/
def isDataFile (u : URL) : Bool := DATA_FILES.any (fun dataPath => u.path == dataPath)

/-- The network, as an oracle: none models a failed (rejected) fetch. -/
abbrev Network := Request → Option Response

/-- What one run of the fetch handler produces: the response the caller
receives (none = the failure surfaces as an unresolved fetch), the
fire-and-forget cache writes it spawned (cache name, key, value), and
whether a network fetch was issued. -/
structure FetchOutcome where
  response : Option Response
  writes : List (String × URL × Response)
  usedNetwork : Bool
deriving DecidableEq, Repr

/-- The synthetic offline response: status 503, body "Offline". -/
def offlineResponse : Response := ⟨503, "Offline"⟩

/-- The URL looked up by the offline-shell fallback, /index.html. -/
def rootURL : URL := ⟨"/index.html", ""⟩

/-- The network-first data branch of the fetch listener: fetch; on
success clone-and-store (detached) and return the live response; on
failure fall back to caches.match, else the synthetic 503 response. -/
def dataPolicy (network : Network) (store : Store) (req : Request) : FetchOutcome :=
  match network req with
  | some response => ⟨some response, [(CACHE_NAME, req.url, response)], true⟩
  | none =>
    match cachesMatchAll store req.url with
    | some cachedResponse => ⟨some cachedResponse, [], true⟩
    | none => ⟨some offlineResponse, [], true⟩

/-- The cache-first static branch of the fetch listener: caches.match;
on a hit return it (no network); on a miss fetch, store a clone
(detached) and return the network response; if the fetch also fails,
serve the cached /index.html to document requests and nothing to
anything else. -/
def staticPolicy (network : Network) (store : Store) (req : Request) : FetchOutcome :=
  match cachesMatchAll store req.url with
  | some response => ⟨some response, [], false⟩
  | none =>
    match network req with
    | some networkResponse =>
      ⟨some networkResponse, [(STATIC_CACHE_NAME, req.url, networkResponse)], true⟩
    | none =>
      if req.destination = "document" then ⟨cachesMatchAll store rootURL, [], true⟩
      else ⟨none, [], true⟩

/-- The fetch listener: route by isDataFile to the data or static branch. -/
def handleFetch (network : Network) (store : Store) (req : Request) : FetchOutcome :=
  if isDataFile req.url then dataPolicy network store req
  else staticPolicy network store req

/-- Apply one completed fire-and-forget write to the store. -/
def applyWrite (s : Store) (w : String × URL × Response) : Store :=
  storePut s w.1 w.2.1 w.2.2

/-- Apply a batch of completed writes, in order. -/
def applyWrites (s : Store) (ws : List (String × URL × Response)) : Store :=
  ws.foldl applyWrite s

/-- The fetch that cache.addAll issues for a manifest path: a plain GET
for the path, no query, no special destination. -/
def fetchPath (network : Network) (p : String) : Option Response :=
  network ⟨⟨p, ""⟩, ""⟩

/-- The entry-writing part of cache.addAll. -/
def addAllFold (network : Network) (c : Cache) (ps : List String) : Cache :=
  ps.foldl
    (fun acc p =>
      match fetchPath network p with
      | some r => cachePut acc ⟨p, ""⟩ r
      | none => acc) c

/-- Embeds cache.addAll(ps): atomic — if fetching any path fails the
whole operation rejects (none) and no entry is added. -/
def addAll (network : Network) (c : Cache) (ps : List String) : Option Cache :=
  if ps.all (fun p => (fetchPath network p).isSome)
  then some (addAllFold network c ps)
  else none

/-- What one run of the install listener produces. -/
structure InstallOutcome where
  store : Store
  skipWaitingCalled : Bool
  loggedFailure : Bool
deriving Repr

/-- The cache currently registered under a name (empty if absent). -/
def storeCacheGet (s : Store) (name : String) : Cache :=
  ((s.find? (fun nc => nc.1 == name)).map (fun nc => nc.2)).getD []

/-- Replace the contents of the cache registered under a name. -/
def storeSetCache (s : Store) (name : String) (c : Cache) : Store :=
  s.map (fun nc => if nc.1 = name then (nc.1, c) else nc)

/-- The install listener: open the static generation, addAll the
manifest; a rejection is caught and only logged, never rethrown;
self.skipWaiting() is called unconditionally. -/
def install (network : Network) (s : Store) : InstallOutcome :=
  let s1 := storeOpen s STATIC_CACHE_NAME
  match addAll network (storeCacheGet s1 STATIC_CACHE_NAME) urlsToCache with
  | some c => ⟨storeSetCache s1 STATIC_CACHE_NAME c, true, false⟩
  | none => ⟨s1, true, true⟩

/-- The activate listener cleanup: delete every cache whose name is
neither CACHE_NAME nor STATIC_CACHE_NAME. -/
def activateStore (s : Store) : Store :=
  s.filter (fun nc => nc.1 == CACHE_NAME || nc.1 == STATIC_CACHE_NAME)

/-! Helper lemmas about the cache operations. -/

theorem cacheMatch_cachePut_self (c : Cache) (u : URL) (r : Response) :
    cacheMatch (cachePut c u r) u = some r := by
  induction c with
  | nil => simp [cachePut, cacheMatch]
  | cons e rest ih =>
    by_cases h : e.1 = u
    · simpa [cachePut, h] using ih
    · simp [cachePut, cacheMatch, h, ih]

theorem cacheMatch_cachePut_ne (c : Cache) (u v : URL) (r : Response) (h : v ≠ u) :
    cacheMatch (cachePut c v r) u = cacheMatch c u := by
  induction c with
  | nil => simp [cachePut, cacheMatch, h]
  | cons e rest ih =>
    by_cases he : e.1 = v
    · have hu : e.1 ≠ u := by rw [he]; exact h
      simp [cachePut, cacheMatch, he, hu, h, ih]
    · simp [cachePut, cacheMatch, he, ih]

theorem cacheMatch_isSome_cachePut (c : Cache) (u v : URL) (r : Response)
    (h : (cacheMatch c u).isSome = true) :
    (cacheMatch (cachePut c v r) u).isSome = true := by
  by_cases hv : v = u
  · subst hv; rw [cacheMatch_cachePut_self]; rfl
  · rw [cacheMatch_cachePut_ne c u v r hv]; exact h

theorem cacheMatch_isSome_addAllFold (network : Network) (ps : List String) :
    ∀ (c : Cache) (u : URL), (cacheMatch c u).isSome = true →
      (cacheMatch (addAllFold network c ps) u).isSome = true := by
  induction ps with
  | nil => intro c u h; exact h
  | cons p ps ih =>
    intro c u h
    cases hf : fetchPath network p with
    | some r =>
      have hstep : addAllFold network c (p :: ps)
          = addAllFold network (cachePut c ⟨p, ""⟩ r) ps := by
        simp [addAllFold, hf]
      rw [hstep]
      exact ih _ u (cacheMatch_isSome_cachePut c u ⟨p, ""⟩ r h)
    | none =>
      have hstep : addAllFold network c (p :: ps) = addAllFold network c ps := by
        simp [addAllFold, hf]
      rw [hstep]
      exact ih _ u h

theorem cacheMatch_addAllFold_mem (network : Network) (ps : List String) :
    ∀ (c : Cache) (p : String), p ∈ ps →
      (∀ q ∈ ps, (fetchPath network q).isSome = true) →
      (cacheMatch (addAllFold network c ps) ⟨p, ""⟩).isSome = true := by
  induction ps with
  | nil => intro c p hp _; cases hp
  | cons q qs ih =>
    intro c p hp hok
    have hq : (fetchPath network q).isSome = true := hok q (List.mem_cons_self q qs)
    obtain ⟨r, hr⟩ := Option.isSome_iff_exists.mp hq
    have hstep : addAllFold network c (q :: qs)
        = addAllFold network (cachePut c ⟨q, ""⟩ r) qs := by
      simp [addAllFold, hr]
    rw [hstep]
    rcases List.mem_cons.mp hp with h | h
    · subst h
      exact cacheMatch_isSome_addAllFold network qs _ _
        (by rw [cacheMatch_cachePut_self]; rfl)
    · exact ih _ p h (fun x hx => hok x (List.mem_cons_of_mem q hx))

theorem cachesMatchAll_storePut (s : Store) (name : String) (u : URL) (r : Response)
    (h : cachesMatchAll s u = none) :
    cachesMatchAll (storePut s name u r) u = some r := by
  induction s with
  | nil => simp [storePut, cachesMatchAll, cachePut, cacheMatch]
  | cons nc rest ih =>
    have hm : cacheMatch nc.2 u = none := by
      cases hm : cacheMatch nc.2 u with
      | some x => simp [cachesMatchAll, hm] at h
      | none => rfl
    have hrest : cachesMatchAll rest u = none := by
      simpa [cachesMatchAll, hm] using h
    by_cases hn : nc.1 = name
    · simp [storePut, hn, cachesMatchAll, cacheMatch_cachePut_self]
    · simp [storePut, hn, cachesMatchAll, hm, ih hrest]

/-! Claim theorems. -/

/-- C1 (counterexample): on a store holding only the superseded
generation friday-saga-v1, activation leaves an empty store — the two
current names are *not* present afterwards, so the surviving name set
does not equal the pair of current names. -/
theorem activate_old_only_store_cex :
    storeNames (activateStore [("friday-saga-v1", [])]) = [] ∧
    CACHE_NAME ∉ storeNames (activateStore [("friday-saga-v1", [])]) ∧
    STATIC_CACHE_NAME ∉ storeNames (activateStore [("friday-saga-v1", [])]) := by
  decide

/-- C1 (amended): activation only deletes — a name survives iff it was
present initially and equals one of the two current names.  The two
current names are never deleted, every other name is deleted, and the
surviving set equals the pair of current names exactly when both were
already present (the activate handler never creates a missing
generation). -/
theorem activate_names_characterization (s : Store) (n : String) :
    n ∈ storeNames (activateStore s) ↔
      n ∈ storeNames s ∧ (n = CACHE_NAME ∨ n = STATIC_CACHE_NAME) := by
  simp only [storeNames, activateStore, List.mem_map, List.mem_filter,
    Bool.or_eq_true, beq_iff_eq]
  constructor
  · rintro ⟨nc, ⟨hmem, hp⟩, rfl⟩
    exact ⟨⟨nc, hmem, rfl⟩, hp⟩
  · rintro ⟨⟨nc, hmem, rfl⟩, hp⟩
    exact ⟨nc, ⟨hmem, hp⟩, rfl⟩

/-- C9: the activate cleanup is idempotent — running it twice with no
intervening install yields the same store, hence the same set of
generation names, as running it once. -/
theorem activate_idempotent (s : Store) :
    activateStore (activateStore s) = activateStore s ∧
    storeNames (activateStore (activateStore s)) = storeNames (activateStore s) := by
  have h : activateStore (activateStore s) = activateStore s := by
    simp [activateStore, List.filter_filter]
  exact ⟨h, by rw [h]⟩

/-- C2: for a data-path request whose network fetch fails, the handler
returns the stored response as-is on a hit, and the synthetic 503
"Offline" response on a miss; in both cases a response is produced, so
the failure never propagates to the caller. -/
theorem data_fetch_failure_fallback (network : Network) (store : Store) (req : Request)
    (hdata : isDataFile req.url = true) (hfail : network req = none) :
    (∀ c, cachesMatchAll store req.url = some c →
      handleFetch network store req = ⟨some c, [], true⟩) ∧
    (cachesMatchAll store req.url = none →
      handleFetch network store req = ⟨some offlineResponse, [], true⟩) ∧
    (handleFetch network store req).response.isSome = true := by
  refine ⟨?_, ?_, ?_⟩
  · intro c hc; simp [handleFetch, dataPolicy, hdata, hfail, hc]
  · intro hc; simp [handleFetch, dataPolicy, hdata, hfail, hc]
  · cases hc : cachesMatchAll store req.url <;>
      simp [handleFetch, dataPolicy, hdata, hfail, hc]

/-- C2 witness: a concrete data request with the network down and an
empty store yields the synthetic 503 "Offline" response. -/
theorem data_fetch_failure_fallback_witness :
    handleFetch (fun _ => none) [] ⟨⟨"/data/jokes.json", ""⟩, ""⟩
      = ⟨some offlineResponse, [], true⟩ :=
  (data_fetch_failure_fallback (fun _ => none) [] ⟨⟨"/data/jokes.json", ""⟩, ""⟩
    (by decide) rfl).2.1 rfl

/-- C3: for a data-path request whose network fetch succeeds, the live
network response is returned unmodified and a duplicate is recorded as
a detached (pending, not awaited) write into the data generation under
the full request URL; the store itself is untouched when the response
is produced. -/
theorem data_fetch_success_live_response (network : Network) (store : Store)
    (req : Request) (resp : Response)
    (hdata : isDataFile req.url = true) (hok : network req = some resp) :
    handleFetch network store req = ⟨some resp, [(CACHE_NAME, req.url, resp)], true⟩ := by
  simp [handleFetch, dataPolicy, hdata, hok]

/-- C3 witness: a concrete data request with a live network response. -/
theorem data_fetch_success_live_response_witness :
    handleFetch (fun _ => some ⟨200, "live"⟩) [] ⟨⟨"/data/videos.json", ""⟩, ""⟩
      = ⟨some ⟨200, "live"⟩, [(CACHE_NAME, ⟨"/data/videos.json", ""⟩, ⟨200, "live"⟩)], true⟩ :=
  data_fetch_success_live_response (fun _ => some ⟨200, "live"⟩) []
    ⟨⟨"/data/videos.json", ""⟩, ""⟩ ⟨200, "live"⟩ (by decide) rfl

/-- C4 (counterexample): the query string is *not* ignored when matching
a data request against stored entries.  With an entry stored for
/data/jokes.json?v=1 and the network down, a request for
/data/jokes.json?v=2 misses and yields the synthetic 503 response
instead of the stored one. -/
theorem data_query_mismatch_cex :
    handleFetch (fun _ => none)
        [(CACHE_NAME, [(⟨"/data/jokes.json", "v=1"⟩, ⟨200, "stored"⟩)])]
        ⟨⟨"/data/jokes.json", "v=2"⟩, ""⟩
      = ⟨some offlineResponse, [], true⟩ ∧
    offlineResponse ≠ ⟨200, "stored"⟩ := by
  decide

/-- C4 (amended): the query string is ignored only by the router when
classifying a request as a data request; both the stored key of the
fire-and-forget write and the fallback cache lookup use the full URL
including the query string, so an entry matches exactly when path and
query both coincide. -/
theorem data_query_exact_matching (network : Network) (store : Store) (req : Request)
    (hdata : isDataFile req.url = true) :
    isDataFile ⟨req.url.path, ""⟩ = true ∧
    (∀ r, network req = some r →
      (handleFetch network store req).writes = [(CACHE_NAME, req.url, r)]) ∧
    (∀ name u r, u ≠ req.url → cachesMatchAll [(name, [(u, r)])] req.url = none) ∧
    (∀ name r, cachesMatchAll [(name, [(req.url, r)])] req.url = some r) := by
  refine ⟨hdata, ?_, ?_, ?_⟩
  · intro r hr; simp [handleFetch, dataPolicy, hdata, hr]
  · intro name u r hu; simp [cachesMatchAll, cacheMatch, hu]
  · intro name r; simp [cachesMatchAll, cacheMatch]

/-- C4 witness: the amended theorem applied at a concrete data request
with a live network response — the pending write is keyed by the full
URL, query string included. -/
theorem data_query_exact_matching_witness :
    (handleFetch (fun _ => some ⟨200, "fresh"⟩) []
        ⟨⟨"/data/themes.json", "v=7"⟩, ""⟩).writes
      = [(CACHE_NAME, ⟨"/data/themes.json", "v=7"⟩, ⟨200, "fresh"⟩)] :=
  (data_query_exact_matching (fun _ => some ⟨200, "fresh"⟩) []
    ⟨⟨"/data/themes.json", "v=7"⟩, ""⟩ (by decide)).2.1 ⟨200, "fresh"⟩ rfl

/-- C5 (counterexample): the static-branch lookup searches *all* caches
in creation order, not only the static generation.  With the same key
present in both the data cache (created first) and the static
generation, the data cache entry is returned, not the static
generation entry. -/
theorem static_lookup_all_caches_cex :
    handleFetch (fun _ => none)
        [(CACHE_NAME, [(⟨"/styles.css", ""⟩, ⟨200, "fromData"⟩)]),
         (STATIC_CACHE_NAME, [(⟨"/styles.css", ""⟩, ⟨200, "fromStatic"⟩)])]
        ⟨⟨"/styles.css", ""⟩, ""⟩
      = ⟨some ⟨200, "fromData"⟩, [], false⟩ ∧
    (⟨200, "fromData"⟩ : Response) ≠ ⟨200, "fromStatic"⟩ := by
  decide

/-- C5 (amended): the static branch consults the whole store in cache
creation order; any hit is returned immediately, with no network fetch
and no cache write.  After an install whose population succeeded and
an activation, every manifest path is served from the cache without a
network call (the only cache is then the static generation). -/
theorem static_cache_first_hit :
    (∀ (network : Network) (store : Store) (req : Request) (r : Response),
      isDataFile req.url = false →
      cachesMatchAll store req.url = some r →
      handleFetch network store req = ⟨some r, [], false⟩) ∧
    (∀ (network network₂ : Network) (p dest : String),
      p ∈ urlsToCache →
      (∀ q ∈ urlsToCache, (fetchPath network q).isSome = true) →
      (handleFetch network₂ (activateStore (install network []).store)
          ⟨⟨p, ""⟩, dest⟩).usedNetwork = false ∧
      (handleFetch network₂ (activateStore (install network []).store)
          ⟨⟨p, ""⟩, dest⟩).writes = [] ∧
      ((handleFetch network₂ (activateStore (install network []).store)
          ⟨⟨p, ""⟩, dest⟩).response).isSome = true) := by
  constructor
  · intro network store req r hs hc
    simp [handleFetch, staticPolicy, hs, hc]
  · intro network network₂ p dest hp hok
    have hall : urlsToCache.all (fun q => (fetchPath network q).isSome) = true := by
      rw [List.all_eq_true]; exact fun q hq => hok q hq
    have hinstall : (install network []).store
        = [(STATIC_CACHE_NAME, addAllFold network [] urlsToCache)] := by
      simp [install, storeOpen, storeCacheGet, addAll, hall, storeSetCache]
    have hact : activateStore [(STATIC_CACHE_NAME, addAllFold network [] urlsToCache)]
        = [(STATIC_CACHE_NAME, addAllFold network [] urlsToCache)] := by
      simp [activateStore]
    have hdf : isDataFile ⟨p, ""⟩ = false := by
      have hall2 : ∀ q ∈ urlsToCache, isDataFile ⟨q, ""⟩ = false := by decide
      exact hall2 p hp
    have hsome := cacheMatch_addAllFold_mem network urlsToCache [] p hp hok
    obtain ⟨r, hr⟩ := Option.isSome_iff_exists.mp hsome
    have hmatch : cachesMatchAll [(STATIC_CACHE_NAME, addAllFold network [] urlsToCache)]
        ⟨p, ""⟩ = some r := by
      simp [cachesMatchAll, hr]
    rw [hinstall, hact]
    simp [handleFetch, staticPolicy, hdf, hmatch]

/-- C5 witness: after a successful install and activation with every
network fetch answering 200 "ok", a request for /styles.css is served
without a network call, with no cache write, and with a response. -/
theorem static_cache_first_hit_witness :
    (handleFetch (fun _ => none)
        (activateStore (install (fun _ => some ⟨200, "ok"⟩) []).store)
        ⟨⟨"/styles.css", ""⟩, ""⟩).usedNetwork = false ∧
    (handleFetch (fun _ => none)
        (activateStore (install (fun _ => some ⟨200, "ok"⟩) []).store)
        ⟨⟨"/styles.css", ""⟩, ""⟩).writes = [] ∧
    ((handleFetch (fun _ => none)
        (activateStore (install (fun _ => some ⟨200, "ok"⟩) []).store)
        ⟨⟨"/styles.css", ""⟩, ""⟩).response).isSome = true :=
  static_cache_first_hit.2 (fun _ => some ⟨200, "ok"⟩) (fun _ => none)
    "/styles.css" "" (by decide) (fun q _ => rfl)

/-- C6: for a static-branch request that misses the cache and whose
network fetch fails, a document request is answered with the stored
root document /index.html (whatever path was requested), and every
other request gets no substitute response — the failure surfaces as an
unresolved fetch. -/
theorem static_offline_document_shell (network : Network) (store : Store) (req : Request)
    (hs : isDataFile req.url = false)
    (hmiss : cachesMatchAll store req.url = none)
    (hfail : network req = none) :
    (∀ shell, req.destination = "document" →
      cachesMatchAll store rootURL = some shell →
      handleFetch network store req = ⟨some shell, [], true⟩) ∧
    (req.destination ≠ "document" →
      handleFetch network store req = ⟨none, [], true⟩) := by
  constructor
  · intro shell hdoc hshell
    simp [handleFetch, staticPolicy, hs, hmiss, hfail, hdoc, hshell]
  · intro hnd
    simp [handleFetch, staticPolicy, hs, hmiss, hfail, hnd]

/-- C6 witness: offline with only /index.html cached, a document
request for a different, uncached path is answered with the stored
root document. -/
theorem static_offline_document_shell_witness :
    handleFetch (fun _ => none)
        [(STATIC_CACHE_NAME, [(rootURL, ⟨200, "shell"⟩)])]
        ⟨⟨"/missing/page", ""⟩, "document"⟩
      = ⟨some ⟨200, "shell"⟩, [], true⟩ :=
  (static_offline_document_shell (fun _ => none)
    [(STATIC_CACHE_NAME, [(rootURL, ⟨200, "shell"⟩)])]
    ⟨⟨"/missing/page", ""⟩, "document"⟩ (by decide) (by decide) rfl).1
    ⟨200, "shell"⟩ rfl (by decide)

/-- C7: the router selects the data branch iff the request URL path,
query string ignored, is exactly an element of DATA_FILES; every other
request — prefix matches and unlisted API-like paths included — takes
the static branch.  The classification never reads the query string. -/
theorem router_exact_path_classification (network : Network) (store : Store)
    (req : Request) :
    handleFetch network store req
      = (if req.url.path ∈ DATA_FILES then dataPolicy network store req
         else staticPolicy network store req) ∧
    isDataFile req.url = isDataFile ⟨req.url.path, ""⟩ := by
  have hiff : isDataFile req.url = true ↔ req.url.path ∈ DATA_FILES := by
    unfold isDataFile
    rw [List.any_eq_true]
    constructor
    · rintro ⟨x, hx, hbeq⟩
      rw [beq_iff_eq] at hbeq
      exact hbeq ▸ hx
    · intro h
      exact ⟨req.url.path, h, beq_self_eq_true req.url.path⟩
  constructor
  · by_cases h : req.url.path ∈ DATA_FILES
    · rw [if_pos h]
      unfold handleFetch
      rw [if_pos (hiff.mpr h)]
    · rw [if_neg h]
      unfold handleFetch
      rw [if_neg (fun hc => h (hiff.mp hc))]
  · rfl

/-- C8: installation requests skipWaiting unconditionally; if any
manifest fetch fails the whole population is a unit failure — nothing
at all is added (the static generation is merely opened) and the
failure is only logged, never rethrown; if every fetch succeeds
nothing is logged. -/
theorem install_population_unit_swallowed (network : Network) (s : Store) :
    (install network s).skipWaitingCalled = true ∧
    ((∃ p, p ∈ urlsToCache ∧ fetchPath network p = none) →
      (install network s).loggedFailure = true ∧
      (install network s).store = storeOpen s STATIC_CACHE_NAME) ∧
    ((∀ p ∈ urlsToCache, (fetchPath network p).isSome = true) →
      (install network s).loggedFailure = false) := by
  refine ⟨?_, ?_, ?_⟩
  · simp only [install]
    split <;> rfl
  · intro hex
    have hfalse : urlsToCache.all (fun p => (fetchPath network p).isSome) = false := by
      obtain ⟨p, hp, hnone⟩ := hex
      cases hb : urlsToCache.all (fun p => (fetchPath network p).isSome) with
      | false => rfl
      | true =>
        have hsome := List.all_eq_true.mp hb p hp
        rw [hnone] at hsome
        cases hsome
    have haddAll : addAll network
        (storeCacheGet (storeOpen s STATIC_CACHE_NAME) STATIC_CACHE_NAME)
        urlsToCache = none := by
      simp [addAll, hfalse]
    simp [install, haddAll]
  · intro hok
    have hall : urlsToCache.all (fun p => (fetchPath network p).isSome) = true :=
      List.all_eq_true.mpr hok
    simp [install, addAll, hall]

/-- C8 witness: with the network entirely down, install still requests
skipWaiting, logs the unit population failure, and leaves the static
generation open but empty. -/
theorem install_population_unit_swallowed_witness :
    (install (fun _ => none) []).skipWaitingCalled = true ∧
    (install (fun _ => none) []).loggedFailure = true ∧
    (install (fun _ => none) []).store = storeOpen [] STATIC_CACHE_NAME := by
  have h := install_population_unit_swallowed (fun _ => none) []
  have h2 := h.2.1 ⟨"/", by decide, rfl⟩
  exact ⟨h.1, h2.1, h2.2⟩

/-- C10: neither branch inspects the status of a fulfilled network
response before writing — any response, a 404 or 500 included, is
recorded as a pending write under the request URL (into the data
generation on the data branch, into the static generation on a
static-branch cache miss), is the response returned, and once the
write completes a lookup for that URL serves it. -/
theorem fulfilled_response_cached_any_status (network : Network) (store : Store)
    (req : Request) (resp : Response)
    (hnet : network req = some resp)
    (hmiss : cachesMatchAll store req.url = none) :
    (handleFetch network store req).writes
      = [((if isDataFile req.url then CACHE_NAME else STATIC_CACHE_NAME),
          req.url, resp)] ∧
    (handleFetch network store req).response = some resp ∧
    cachesMatchAll (applyWrites store (handleFetch network store req).writes) req.url
      = some resp := by
  cases hd : isDataFile req.url with
  | true =>
    have hout : handleFetch network store req
        = ⟨some resp, [(CACHE_NAME, req.url, resp)], true⟩ := by
      simp [handleFetch, dataPolicy, hd, hnet]
    rw [hout]
    refine ⟨by simp, rfl, ?_⟩
    exact cachesMatchAll_storePut store CACHE_NAME req.url resp hmiss
  | false =>
    have hout : handleFetch network store req
        = ⟨some resp, [(STATIC_CACHE_NAME, req.url, resp)], true⟩ := by
      simp [handleFetch, staticPolicy, hd, hmiss, hnet]
    rw [hout]
    refine ⟨by simp, rfl, ?_⟩
    exact cachesMatchAll_storePut store STATIC_CACHE_NAME req.url resp hmiss

/-- C10 witness: a fulfilled 404 response for an uncached static path
is written to the static generation and served by a later lookup. -/
theorem fulfilled_response_cached_any_status_witness :
    (handleFetch (fun _ => some ⟨404, "not found"⟩) [] ⟨⟨"/nope.png", ""⟩, ""⟩).writes
      = [(STATIC_CACHE_NAME, ⟨"/nope.png", ""⟩, ⟨404, "not found"⟩)] ∧
    cachesMatchAll
        (applyWrites []
          (handleFetch (fun _ => some ⟨404, "not found"⟩) []
            ⟨⟨"/nope.png", ""⟩, ""⟩).writes)
        ⟨"/nope.png", ""⟩ = some ⟨404, "not found"⟩ := by
  have h := fulfilled_response_cached_any_status (fun _ => some ⟨404, "not found"⟩)
    [] ⟨⟨"/nope.png", ""⟩, ""⟩ ⟨404, "not found"⟩ rfl rfl
  have hb : isDataFile ⟨"/nope.png", ""⟩ = false := by decide
  refine ⟨?_, h.2.2⟩
  rw [h.1, hb]
  rfl

end Friday
